import Mathlib

/-! XPF plugin: a shallow embedding of `xpf.go`.

The file embeds `appendXpfRecord`, `protoIANA`, `New` and `XPF.ServeDNS` of
`xpf.go`, together with the standard-library routines they call
(`strconv.ParseUint`, `net.ParseIP`, `IP.To4`, `IP.To16`), and proves the
properties of the record builder, the injector and the handler wrapper.

Conventions.
* A Go `string` is its byte sequence: a `List Nat` of byte values.  `str`
  turns an ASCII literal into that sequence.
* A Go `[]byte` / `net.IP` is a `List Nat`; the `nil` slice is `[]`.
* Unsigned machine integers are `Nat`; conversions and wrapping arithmetic
  are written with an explicit `% 2 ^ w`.
* A Go function that mutates its argument and returns an `error` returns the
  pair of the error (`none` for `nil`) and the new state.
-/

namespace Xpf

/-- A Go `string`, as the sequence of its bytes. -/
abbrev GoString := List Nat

/-- The byte sequence of an ASCII string literal. -/
def str (s : String) : GoString := s.toList.map Char.toNat

/-! ## Errors -/

/-- The two sentinel errors of `strconv`: `ErrSyntax` and `ErrRange`. -/
inductive NumErrKind where
  | ErrSyntax
  | ErrRange
  deriving DecidableEq, Repr

/-- The error values that occur in `xpf.go`:
`numError` is `*strconv.NumError{Func, Num, Err}`,
`errorString` is the value built by `fmt.Errorf`,
`xpfError` is the plugin's own `&Error{msg}`. -/
inductive GoError where
  | numError (Func : GoString) (Num : GoString) (Err : NumErrKind)
  | bitSizeError (Func : GoString) (Num : GoString) (bitSize : Nat)
  | errorString (msg : GoString)
  | xpfError (msg : GoString)
  deriving DecidableEq, Repr

/-! ## `strconv.ParseUint` -/

namespace strconv

/-- The constant `fnParseUint`. -/
def fnParseUint : GoString := str "ParseUint"

/-- The helper `syntaxError(fn, str)`. -/
def syntaxError (fn s : GoString) : GoError := .numError fn s .ErrSyntax

/-- The helper `rangeError(fn, str)`. -/
def rangeError (fn s : GoString) : GoError := .numError fn s .ErrRange

/-- The constant `maxUint64`. -/
def maxUint64 : Nat := 2 ^ 64 - 1

/-- The helper `lower(c)`: `c | ('x' - 'X')` on a byte. -/
def lower (c : Nat) : Nat := (c ||| (120 - 88)) % 256

/-- The `switch` at the head of the loop body of `ParseUint`, for a base
in `2..36` (so `base0` is false and the underscore case is never taken):
the digit value `d` of the byte `c`, or `none` in the `default` case. -/
def digitOf (c : Nat) : Option Nat :=
  if 48 ≤ c ∧ c ≤ 57 then
    some (c - 48)
  else if 97 ≤ lower c ∧ lower c ≤ 122 then
    some (lower c - 97 + 10)
  else
    none

/-- The digit loop of `ParseUint`: `n` is the `uint64` accumulator, the
list is the rest of `[]byte(s)`.  The result is the pair `(value, error)`
that `ParseUint` returns. -/
def parseUintLoop (s0 : GoString) (base cutoff maxVal : Nat) :
    List Nat → Nat → Nat × Option GoError
  | [], n => (n, none)
  | c :: rest, n =>
    match digitOf c with
    | none => (0, some (syntaxError fnParseUint s0))
    | some d =>
      if d ≥ base % 256 then
        (0, some (syntaxError fnParseUint s0))
      else if n ≥ cutoff then
        (maxVal, some (rangeError fnParseUint s0))
      else
        let n' := (n * base) % 2 ^ 64
        let n1 := (n' + d) % 2 ^ 64
        if n1 < n' ∨ n1 > maxVal then
          (maxVal, some (rangeError fnParseUint s0))
        else
          parseUintLoop s0 base cutoff maxVal rest n1

/-- The function `strconv.ParseUint(s, 10, bitSize)`: the call sites of
`xpf.go` fix `base = 10`, so the prefix detection of `base == 0` and the
underscore check are not reachable and the base is the constant 10. -/
def ParseUint (s : GoString) (bitSize : Nat) : Nat × Option GoError :=
  if s = [] then
    (0, some (syntaxError fnParseUint s))
  else if bitSize > 64 then
    (0, some (.bitSizeError fnParseUint s bitSize))
  else
    let bitSize := if bitSize = 0 then 64 else bitSize
    let cutoff := maxUint64 / 10 + 1
    let maxVal := (2 ^ bitSize - 1) % 2 ^ 64
    parseUintLoop s 10 cutoff maxVal s 0

end strconv

/-! ## `protoIANA` -/

/-- The function `protoIANA` of `xpf.go`: the returned pair is
`(uint8, error)`; `fmt.Errorf("invalid network protocol: %v", proto)` is the
fixed prefix followed by the bytes of `proto`. -/
def protoIANA (proto : GoString) : Nat × Option GoError :=
  if proto = str "udp" then
    (17, none)
  else if proto = str "tcp" then
    (6, none)
  else
    (0, some (.errorString (str "invalid network protocol: " ++ proto)))

/-! ## `net.ParseIP`, `IP.To4`, `IP.To16` -/

namespace net

/-- The type `net.IP`, a byte slice; `nil` is `[]`. -/
abbrev IP := List Nat

/-- The constant `IPv4len`. -/
def IPv4len : Nat := 4

/-- The constant `IPv6len`. -/
def IPv6len : Nat := 16

/-- The constant `big` of `net/parse.go`. -/
def big : Nat := 0xFFFFFF

/-- The variable `v4InV6Prefix`. -/
def v4InV6Prefix : List Nat := [0, 0, 0, 0, 0, 0, 0, 0, 0, 0, 0xff, 0xff]

/-- The function `net.IPv4(a, b, c, d)`: the 16-byte form of an IPv4
address. -/
def IPv4 (a b c d : Nat) : IP := v4InV6Prefix ++ [a, b, c, d]

/-- The loop of `dtoi`: `n` and `i` are the running value and index, the
list is `s[i:]`.  The result is `(n, i, ok)`. -/
def dtoiLoop : List Nat → Nat → Nat → Nat × Nat × Bool
  | [], n, i => if i = 0 then (0, 0, false) else (n, i, true)
  | c :: rest, n, i =>
    if 48 ≤ c ∧ c ≤ 57 then
      let n1 := n * 10 + (c - 48)
      if n1 ≥ big then (big, i, false) else dtoiLoop rest n1 (i + 1)
    else if i = 0 then (0, 0, false) else (n, i, true)

/-- The function `dtoi(s)`: decimal to integer; returns the number, the
count of bytes consumed and success. -/
def dtoi (s : GoString) : Nat × Nat × Bool := dtoiLoop s 0 0

/-- The loop of `xtoi`: `n` and `i` are the running value and index, the
list is `s[i:]`.  The result is `(n, i, ok)`. -/
def xtoiLoop : List Nat → Nat → Nat → Nat × Nat × Bool
  | [], n, i => if i = 0 then (0, i, false) else (n, i, true)
  | c :: rest, n, i =>
    if 48 ≤ c ∧ c ≤ 57 then
      let n1 := n * 16 + (c - 48)
      if n1 ≥ big then (0, i, false) else xtoiLoop rest n1 (i + 1)
    else if 97 ≤ c ∧ c ≤ 102 then
      let n1 := n * 16 + (c - 97) + 10
      if n1 ≥ big then (0, i, false) else xtoiLoop rest n1 (i + 1)
    else if 65 ≤ c ∧ c ≤ 70 then
      let n1 := n * 16 + (c - 65) + 10
      if n1 ≥ big then (0, i, false) else xtoiLoop rest n1 (i + 1)
    else if i = 0 then (0, i, false) else (n, i, true)

/-- The function `xtoi(s)`: hexadecimal to integer; returns the number, the
count of bytes consumed and success. -/
def xtoi (s : GoString) : Nat × Nat × Bool := xtoiLoop s 0 0

/-- The `for i := 0; i < IPv4len; i++` loop of `parseIPv4` and the code
after it: `p` is the array `[IPv4len]byte`, `i` the loop counter and `todo`
the number of iterations left (`IPv4len - i`). -/
def parseIPv4Loop : Nat → Nat → GoString → List Nat → IP
  | 0, _, s, p =>
    if s.length ≠ 0 then []
    else IPv4 (p.getD 0 0) (p.getD 1 0) (p.getD 2 0) (p.getD 3 0)
  | todo + 1, i, s, p =>
    if s.length = 0 then []                       -- missing octets
    else if i > 0 ∧ s.head? ≠ some 46 then []     -- s[0] != '.'
    else
      let s := if i > 0 then s.drop 1 else s
      let (n, c, ok) := dtoi s
      if ok = false ∨ n > 0xFF then []
      else if c > 1 ∧ s.head? = some 48 then []   -- leading zeroes
      else parseIPv4Loop todo (i + 1) (s.drop c) (p.set i (n % 256))

/-- The function `parseIPv4(s)`: a dotted decimal IPv4 address, as a 16-byte
`IP`, or `nil`. -/
def parseIPv4 (s : GoString) : IP := parseIPv4Loop IPv4len 0 s [0, 0, 0, 0]

/-- The state of the main loop of `parseIPv6`: the rest of the string, the
index `i` into `ip`, the position of the ellipsis (`none` is `-1`) and the
address built so far. -/
structure V6State where
  s : GoString
  i : Nat
  ellipsis : Option Nat
  ip : List Nat
  deriving DecidableEq, Repr

/-- The `for i < IPv6len` loop of `parseIPv6`.  The result is `none` where
the loop body executes `return nil`, and the state at loop exit (by `break`
or by the loop condition) otherwise.  Every iteration that does not leave
the loop adds 2 to `i`, so `fuel = 8` iterations are enough. -/
def parseIPv6Loop : Nat → V6State → Option V6State
  | 0, st => some st
  | fuel + 1, st =>
    if ¬ st.i < IPv6len then some st
    else
      -- Hex number.
      let (n, c, ok) := xtoi st.s
      if ok = false ∨ n > 0xFFFF then none
      -- If followed by dot, might be in trailing IPv4.
      else if c < st.s.length ∧ st.s.getD c 0 = 46 then
        if st.ellipsis = none ∧ st.i ≠ IPv6len - IPv4len then none
        else if st.i + IPv4len > IPv6len then none
        else
          let ip4 := parseIPv4 st.s
          if ip4 = [] then none
          else
            let ip := (((st.ip.set st.i (ip4.getD 12 0)).set (st.i + 1) (ip4.getD 13 0)).set
              (st.i + 2) (ip4.getD 14 0)).set (st.i + 3) (ip4.getD 15 0)
            some { s := [], i := st.i + IPv4len, ellipsis := st.ellipsis, ip := ip }
      else
        -- Save this 16-bit chunk.
        let ip := (st.ip.set st.i ((n / 2 ^ 8) % 256)).set (st.i + 1) (n % 256)
        let i := st.i + 2
        -- Stop at end of string.
        let s := st.s.drop c
        if s.length = 0 then some { s := s, i := i, ellipsis := st.ellipsis, ip := ip }
        -- Otherwise must be followed by colon and more.
        else if s.head? ≠ some 58 ∨ s.length = 1 then none
        else
          let s := s.drop 1
          -- Look for ellipsis.
          if s.head? = some 58 then
            if st.ellipsis ≠ none then none
            else
              let s := s.drop 1
              if s.length = 0 then some { s := s, i := i, ellipsis := some i, ip := ip }
              else parseIPv6Loop fuel { s := s, i := i, ellipsis := some i, ip := ip }
          else parseIPv6Loop fuel { s := s, i := i, ellipsis := st.ellipsis, ip := ip }

/-- The two loops of `parseIPv6` that expand the ellipsis:
`for j := i - 1; j >= ellipsis; j-- { ip[j+n] = ip[j] }` and
`for j := ellipsis + n - 1; j >= ellipsis; j-- { ip[j] = 0 }`. -/
def expandEllipsis (ip : List Nat) (i ellipsis n : Nat) : List Nat :=
  let ip1 := (List.range' ellipsis (i - ellipsis)).reverse.foldl
    (fun ip j => ip.set (j + n) (ip.getD j 0)) ip
  (List.range' ellipsis n).reverse.foldl (fun ip j => ip.set j 0) ip1

/-- The function `parseIPv6(s)`: an IPv6 literal (RFC 4291, RFC 5952)
as a 16-byte `IP`, or `nil`. -/
def parseIPv6 (s : GoString) : IP :=
  let ip := List.replicate IPv6len 0
  -- Might have leading ellipsis
  let lead := decide (s.length ≥ 2 ∧ s.getD 0 0 = 58 ∧ s.getD 1 0 = 58)
  let ellipsis : Option Nat := if lead then some 0 else none
  let s := if lead then s.drop 2 else s
  -- Might be only ellipsis
  if lead ∧ s.length = 0 then ip
  else
    match parseIPv6Loop 8 { s := s, i := 0, ellipsis := ellipsis, ip := ip } with
    | none => []
    | some st =>
      -- Must have used entire string.
      if st.s.length ≠ 0 then []
      -- If didn't parse enough, expand ellipsis.
      else if st.i < IPv6len then
        match st.ellipsis with
        | none => []
        | some e => expandEllipsis st.ip st.i e (IPv6len - st.i)
      -- Ellipsis must represent at least one 0 group.
      else if st.ellipsis ≠ none then []
      else st.ip

/-- The loop of `net.ParseIP`: the first `'.'` or `':'` in `s` decides
between `parseIPv4(s)` and `parseIPv6(s)`; without either, `nil`. -/
def parseIPScan (s : GoString) : List Nat → IP
  | [] => []
  | c :: rest =>
    if c = 46 then parseIPv4 s
    else if c = 58 then parseIPv6 s
    else parseIPScan s rest

/-- The function `net.ParseIP(s)`. -/
def ParseIP (s : GoString) : IP := parseIPScan s s

/-- The helper `isZeros(p)`. -/
def isZeros (p : List Nat) : Bool := p.all (fun b => b = 0)

/-- The method `IP.To4`: the 4-byte form of an IPv4 address, else `nil`. -/
def To4 (ip : IP) : IP :=
  if ip.length = IPv4len then ip
  else if ip.length = IPv6len ∧ isZeros (ip.take 10) ∧ ip.getD 10 0 = 0xff ∧
      ip.getD 11 0 = 0xff then
    (ip.take 16).drop 12
  else []

/-- The method `IP.To16`: the 16-byte form of an address, else `nil`. -/
def To16 (ip : IP) : IP :=
  if ip.length = IPv4len then
    IPv4 (ip.getD 0 0) (ip.getD 1 0) (ip.getD 2 0) (ip.getD 3 0)
  else if ip.length = IPv6len then ip
  else []

end net

/-! ## The data model -/

/-- The type `XPFPrivateRR`, the data of the XPF record, with the fields
that `appendXpfRecord` assigns: `IPVersion` and `Protocol` are `uint8`,
the ports are `uint16`, the addresses are `net.IP`.  The default value is
Go's zero value `XPFPrivateRR{}`. -/
structure XPFPrivateRR where
  IPVersion : Nat := 0
  Protocol : Nat := 0
  SrcAddress : net.IP := []
  DestAddress : net.IP := []
  SrcPort : Nat := 0
  DestPort : Nat := 0
  deriving DecidableEq, Repr

namespace dns

/-- The type `dns.RR_Header`, with the four fields that `xpf.go` sets. -/
structure RR_Header where
  Name : GoString
  Rrtype : Nat
  Class : Nat
  Ttl : Nat
  deriving DecidableEq, Repr

/-- A resource record `dns.RR` of the additional section: either a
`*dns.PrivateRR` holding XPF data, or a record of any other kind, kept as
its header and raw data. -/
inductive RR where
  | PrivateRR (Hdr : RR_Header) (Data : XPFPrivateRR)
  | other (Hdr : RR_Header) (rdata : List Nat)
  deriving DecidableEq, Repr

/-- The part of `dns.Msg` that `xpf.go` touches: the additional section
`Extra`. -/
structure Msg where
  Extra : List RR
  deriving DecidableEq, Repr

/-- The constant `dns.RcodeServerFailure`. -/
def RcodeServerFailure : Int := 2

end dns

/-- The connection behind a `dns.ResponseWriter`, as the values that the
methods of `request.Request` report for it: `Family()`, `IP()`, `Port()`,
`LocalIP()`, `LocalPort()` and `Proto()`. -/
structure ResponseWriter where
  Family : Int
  IP : GoString
  Port : GoString
  LocalIP : GoString
  LocalPort : GoString
  Proto : GoString
  deriving DecidableEq, Repr

/-- The type `request.Request{W, Req}`. -/
structure Request where
  W : ResponseWriter
  Req : dns.Msg
  deriving DecidableEq, Repr

/-! ## `appendXpfRecord` -/

/-- The `switch state.Family()` of `appendXpfRecord`, applied to the zero
value `&XPFPrivateRR{}`; the `switch` has no `default` case. -/
def familyFields (state : Request) : XPFPrivateRR :=
  let xpfRRData : XPFPrivateRR := {}
  if state.W.Family = 1 then
    { xpfRRData with
      IPVersion := 4
      SrcAddress := net.To4 (net.ParseIP state.W.IP)
      DestAddress := net.To4 (net.ParseIP state.W.LocalIP) }
  else if state.W.Family = 2 then
    { xpfRRData with
      IPVersion := 6
      SrcAddress := net.To16 (net.ParseIP state.W.IP)
      DestAddress := net.To16 (net.ParseIP state.W.LocalIP) }
  else
    xpfRRData

/-- The function `appendXpfRecord(rrtype, state)` of `xpf.go`.  The result
is the returned `error` and the request after the call (its message is
mutated only by the final `append`). -/
def appendXpfRecord (rrtype : Nat) (state : Request) : Option GoError × Request :=
  let xpfRRData := familyFields state
  match strconv.ParseUint state.W.Port 16 with
  | (_, some err) => (some err, state)
  | (srcPort64, none) =>
    let xpfRRData := { xpfRRData with SrcPort := srcPort64 % 2 ^ 16 }
    match strconv.ParseUint state.W.LocalPort 16 with
    | (_, some err) => (some err, state)
    | (destPort64, none) =>
      let xpfRRData := { xpfRRData with DestPort := destPort64 % 2 ^ 16 }
      match protoIANA state.W.Proto with
      | (_, some err) => (some err, state)
      | (proto, none) =>
        let xpfRRData := { xpfRRData with Protocol := proto }
        -- Put the data into the PrivateRR
        let xpfRR := dns.RR.PrivateRR
          { Name := str ".", Rrtype := rrtype, Class := 1, Ttl := 0 } xpfRRData
        -- Append to the Additional Section
        (none, { state with Req := { state.Req with Extra := state.Req.Extra ++ [xpfRR] } })

/-! ## The plugin: `New`, `ServeDNS` -/

/-- The constant `DefaultTypeXPF`. -/
def DefaultTypeXPF : Nat := 65422

/-- A `plugin.Handler`: what its `ServeDNS` returns for a writer and a
message. -/
structure Handler where
  ServeDNS : ResponseWriter → dns.Msg → Int × Option GoError

/-- The type `XPF`; `Next = none` is the `nil` handler. -/
structure XPF where
  rrtype : Nat
  Next : Option Handler

/-- The function `New()`; it returns the instance with a `nil` error. -/
def New : XPF × Option GoError := ({ rrtype := DefaultTypeXPF, Next := none }, none)

/-- The method `XPF.Name`. -/
def XPF.Name (_ : XPF) : GoString := str "xpf"

/-- What one call of `XPF.ServeDNS` does: the returned `rc` and `err`, the
message `r` as `ServeDNS` itself left it, and the message the next handler
was invoked with (`none` when it was not invoked). -/
structure ServeResult where
  rc : Int
  err : Option GoError
  r : dns.Msg
  forwarded : Option dns.Msg
  deriving DecidableEq, Repr

/-- The function `plugin.NextOrFailure(name, next, ctx, w, r)`: it calls the
next handler when there is one, and otherwise returns
`dns.RcodeServerFailure` with the error `plugin/<name>: no next plugin
found`.  The result also records the message the handler was called with. -/
def NextOrFailure (name : GoString) (next : Option Handler) (w : ResponseWriter)
    (r : dns.Msg) : ServeResult :=
  match next with
  | some h =>
    let (rc, err) := h.ServeDNS w r
    { rc := rc, err := err, r := r, forwarded := some r }
  | none =>
    { rc := dns.RcodeServerFailure
      err := some (.errorString (str "plugin/" ++ name ++ str ": no next plugin found"))
      r := r, forwarded := none }

/-- The method `XPF.ServeDNS(ctx, w, r)`.  The named result `rc` is 0 until
assigned; the recorder `rrw` wraps `w` and reports the same connection; the
call of `log.Errorf` only writes a log line. -/
def XPF.ServeDNS (xpf : XPF) (w : ResponseWriter) (r : dns.Msg) : ServeResult :=
  let rc : Int := 0
  let state : Request := { W := w, Req := r }
  let rrw := w
  match appendXpfRecord xpf.rrtype state with
  | (some _, state) =>
    { rc := rc
      err := some (.xpfError (str "failed to append the XPF record to the DNS request"))
      r := state.Req, forwarded := none }
  | (none, state) =>
    NextOrFailure xpf.Name xpf.Next rrw state.Req

/-! ## The record codec -/

/-- A decoding failure of the record codec. -/
inductive FormatError where
  | tooShort
  | badVersion
  | badLength
  deriving DecidableEq, Repr

/-- Modelled from the spec: the method `Pack` of `XPFPrivateRR`, whose
source file is not part of `xpf.go`.  The layout, in network byte order, is
one byte of IP version, one byte of protocol number, two bytes of source
port, two bytes of destination port, the source address and the
destination address. -/
def XPFPrivateRR.Encode (d : XPFPrivateRR) : List Nat :=
  [d.IPVersion % 256, d.Protocol % 256,
   d.SrcPort / 256 % 256, d.SrcPort % 256,
   d.DestPort / 256 % 256, d.DestPort % 256] ++ d.SrcAddress ++ d.DestAddress

/-- Modelled from the spec: the method `Unpack` of the record made by
`NewXPFPrivateRR`, whose source file is not part of `xpf.go`.  Decoding
fails if fewer than 6 bytes are present, if the IP-version byte is not 4 or
6, or if the remaining byte count is not exactly `2 * N` for the declared
version (`N = 4` or `N = 16`). -/
def XPFPrivateRR.Decode (buf : List Nat) : Except FormatError XPFPrivateRR :=
  match buf with
  | ver :: proto :: sp1 :: sp0 :: dp1 :: dp0 :: rest =>
    if ver ≠ 4 ∧ ver ≠ 6 then .error .badVersion
    else
      let n := if ver = 4 then 4 else 16
      if rest.length ≠ 2 * n then .error .badLength
      else
        .ok { IPVersion := ver, Protocol := proto
              SrcPort := sp1 * 256 + sp0, DestPort := dp1 * 256 + dp0
              SrcAddress := rest.take n, DestAddress := rest.drop n }
  | _ => .error .tooShort

/-- The value range of the fields of `XPFPrivateRR`: `uint8` version and
protocol, `uint16` ports, byte-valued addresses. -/
def XPFPrivateRR.InRange (d : XPFPrivateRR) : Prop :=
  d.IPVersion < 2 ^ 8 ∧ d.Protocol < 2 ^ 8 ∧ d.SrcPort < 2 ^ 16 ∧ d.DestPort < 2 ^ 16 ∧
  (∀ b ∈ d.SrcAddress, b < 2 ^ 8) ∧ (∀ b ∈ d.DestAddress, b < 2 ^ 8)

/-- The invariant of `XpfRecordData`: version 4 with two 4-byte addresses,
or version 6 with two 16-byte addresses. -/
def XPFPrivateRR.WellFormed (d : XPFPrivateRR) : Prop :=
  (d.IPVersion = 4 ∧ d.SrcAddress.length = 4 ∧ d.DestAddress.length = 4) ∨
  (d.IPVersion = 6 ∧ d.SrcAddress.length = 16 ∧ d.DestAddress.length = 16)

instance (d : XPFPrivateRR) : Decidable d.WellFormed := by
  unfold XPFPrivateRR.WellFormed; infer_instance

/-- A next handler that answers every query with rcode 0 and no error. -/
def exampleNext : Handler := { ServeDNS := fun _ _ => (0, none) }

/-- A record of another kind, already present in an additional section. -/
def exampleOther : dns.RR :=
  dns.RR.other { Name := str "example.", Rrtype := 41, Class := 4096, Ttl := 0 } []

/-- A request over a UDP/IPv4 connection from 192.0.2.1:5353 to
192.0.2.2:53, with an empty additional section. -/
def exampleWriter : ResponseWriter :=
  { Family := 1, IP := str "192.0.2.1", Port := str "5353",
    LocalIP := str "192.0.2.2", LocalPort := str "53", Proto := str "udp" }

/-! ## Decimal strings, as the specification describes them -/

/-- The byte `c` is an ASCII decimal digit. -/
def IsDigit (c : Nat) : Prop := 48 ≤ c ∧ c ≤ 57

instance (c : Nat) : Decidable (IsDigit c) := by
  unfold IsDigit; infer_instance

/-- The number a string of decimal digits denotes, read after the digits
that gave `n`. -/
def decimalFrom (n : Nat) (s : GoString) : Nat :=
  s.foldl (fun n c => n * 10 + (c - 48)) n

/-- The number a string of decimal digits denotes. -/
def decimalValue (s : GoString) : Nat := decimalFrom 0 s

/-- The string `s` is a base-10 unsigned integer: one or more decimal
digits and nothing else. -/
def IsDecimal (s : GoString) : Prop := s ≠ [] ∧ ∀ c ∈ s, IsDigit c

instance (s : GoString) : Decidable (IsDecimal s) := by
  unfold IsDecimal; infer_instance

/-- The string `s` is a base-10 unsigned integer in `0..65535`. -/
def IsPort (s : GoString) : Prop := IsDecimal s ∧ decimalValue s ≤ 65535

instance (s : GoString) : Decidable (IsPort s) := by
  unfold IsPort; infer_instance

/-- The string `s` is one octet of a dotted quad: a base-10 integer in
`0..255`, written without a leading zero unless it is the single digit. -/
def IsOctet (s : GoString) : Prop :=
  IsDecimal s ∧ decimalValue s ≤ 255 ∧ (1 < s.length → s.head? ≠ some 48)

instance (s : GoString) : Decidable (IsOctet s) := by
  unfold IsOctet; infer_instance

/-- The dotted quad with the four octet strings `a`, `b`, `c` and `d`. -/
def dottedQuad (a b c d : GoString) : GoString :=
  a ++ 46 :: (b ++ 46 :: (c ++ 46 :: d))

/-! ## Auxiliary definitions for the statements -/

/-- The record that `appendXpfRecord` builds once both ports parsed to `p`
and `q` and the protocol mapped to `proto`. -/
def builtRR (rrtype : Nat) (state : Request) (p q proto : Nat) : dns.RR :=
  dns.RR.PrivateRR { Name := str ".", Rrtype := rrtype, Class := 1, Ttl := 0 }
    { familyFields state with SrcPort := p, DestPort := q, Protocol := proto }

/-- The request after a successful `append` of the record `rr`. -/
def withExtra (state : Request) (rr : dns.RR) : Request :=
  { state with Req := { state.Req with Extra := state.Req.Extra ++ [rr] } }

/-- The three conditions under which `appendXpfRecord` succeeds. -/
def Buildable (w : ResponseWriter) : Prop :=
  IsPort w.Port ∧ IsPort w.LocalPort ∧ (w.Proto = str "udp" ∨ w.Proto = str "tcp")

instance (w : ResponseWriter) : Decidable (Buildable w) := by
  unfold Buildable; infer_instance

/-! ## Lemmas on `strconv.ParseUint` -/

theorem decimalFrom_cons (n c : Nat) (s : GoString) :
    decimalFrom n (c :: s) = decimalFrom (n * 10 + (c - 48)) s := rfl

theorem le_decimalFrom (s : GoString) : ∀ n, n ≤ decimalFrom n s := by
  induction s with
  | nil => intro n; exact Nat.le_refl n
  | cons c s ih =>
    intro n
    rw [decimalFrom_cons]
    exact Nat.le_trans (by omega) (ih _)

theorem digitOf_of_isDigit {c : Nat} (h : IsDigit c) :
    strconv.digitOf c = some (c - 48) := by
  unfold IsDigit at h
  simp [strconv.digitOf, h]

theorem digitOf_of_not_isDigit {c : Nat} (h : ¬ IsDigit c) :
    strconv.digitOf c = none ∨ ∃ d, strconv.digitOf c = some d ∧ 10 ≤ d := by
  unfold IsDigit at h
  unfold strconv.digitOf
  rw [if_neg h]
  by_cases h2 : 97 ≤ strconv.lower c ∧ strconv.lower c ≤ 122
  · right; exact ⟨_, by rw [if_pos h2], by omega⟩
  · left; rw [if_neg h2]

/-- The digit loop at `base = 10`, `bitSize = 16` returns the value of the
digits when they are all decimal and the value fits 16 bits. -/
theorem parseUintLoop_ok (s0 : GoString) (l : List Nat) :
    ∀ n, (∀ c ∈ l, IsDigit c) → decimalFrom n l ≤ 65535 →
      strconv.parseUintLoop s0 10 (strconv.maxUint64 / 10 + 1) 65535 l n =
        (decimalFrom n l, none) := by
  induction l with
  | nil => intro n _ _; rfl
  | cons c l ih =>
    intro n hd hv
    have hc : IsDigit c := hd c (List.mem_cons_self _ _)
    have hl : ∀ x ∈ l, IsDigit x := fun x hx => hd x (List.mem_cons_of_mem _ hx)
    rw [decimalFrom_cons] at hv
    have h1 : n * 10 + (c - 48) ≤ 65535 := Nat.le_trans (le_decimalFrom l _) hv
    unfold IsDigit at hc
    have hmax : strconv.maxUint64 / 10 + 1 = 1844674407370955162 := by decide
    rw [strconv.parseUintLoop, digitOf_of_isDigit (by exact hc), hmax]
    have e1 : (n * 10) % 2 ^ 64 = n * 10 := Nat.mod_eq_of_lt (by omega)
    have e2 : (n * 10 + (c - 48)) % 2 ^ 64 = n * 10 + (c - 48) := Nat.mod_eq_of_lt (by omega)
    simp only [e1, e2]
    rw [if_neg (by omega), if_neg (by omega), if_neg (by omega)]
    rw [decimalFrom_cons]
    exact ih _ hl hv

/-- The digit loop at `base = 10`, `bitSize = 16` returns a `NumError` for
the whole string when some byte is not a decimal digit or the value does not
fit 16 bits. -/
theorem parseUintLoop_err (s0 : GoString) (l : List Nat) :
    ∀ n, n ≤ 65535 → ¬ ((∀ c ∈ l, IsDigit c) ∧ decimalFrom n l ≤ 65535) →
      ∃ v k, strconv.parseUintLoop s0 10 (strconv.maxUint64 / 10 + 1) 65535 l n =
        (v, some (.numError strconv.fnParseUint s0 k)) := by
  induction l with
  | nil =>
    intro n hn h
    exact absurd ⟨fun _ hc => absurd hc (List.not_mem_nil _), hn⟩ h
  | cons c l ih =>
    intro n hn h
    have hmax : strconv.maxUint64 / 10 + 1 = 1844674407370955162 := by decide
    by_cases hc : IsDigit c
    · rw [strconv.parseUintLoop, digitOf_of_isDigit hc, hmax]
      unfold IsDigit at hc
      have e1 : (n * 10) % 2 ^ 64 = n * 10 := Nat.mod_eq_of_lt (by omega)
      have e2 : (n * 10 + (c - 48)) % 2 ^ 64 = n * 10 + (c - 48) :=
        Nat.mod_eq_of_lt (by omega)
      simp only [e1, e2]
      rw [if_neg (by omega), if_neg (by omega)]
      by_cases hr : n * 10 + (c - 48) ≤ 65535
      · rw [if_neg (by omega)]
        apply ih _ hr
        rintro ⟨hl, hv⟩
        apply h
        refine ⟨?_, hv⟩
        intro x hx
        rcases List.mem_cons.mp hx with rfl | hx
        · exact hc
        · exact hl x hx
      · rw [if_pos (by omega)]
        exact ⟨_, _, rfl⟩
    · rw [strconv.parseUintLoop]
      rcases digitOf_of_not_isDigit hc with h0 | ⟨d, h0, hd⟩
      · rw [h0]; exact ⟨_, _, rfl⟩
      · rw [h0]
        simp only []
        rw [if_pos (by omega)]
        exact ⟨_, _, rfl⟩

/-- On a base-10 unsigned integer in `0..65535`, `ParseUint(s, 10, 16)`
returns its value and no error. -/
theorem ParseUint_of_isPort {s : GoString} (h : IsPort s) :
    strconv.ParseUint s 16 = (decimalValue s, none) := by
  obtain ⟨⟨hne, hd⟩, hv⟩ := h
  unfold strconv.ParseUint
  rw [if_neg hne, if_neg (by omega)]
  exact parseUintLoop_ok s s 0 hd hv

/-- On any other string, `ParseUint(s, 10, 16)` returns a `NumError` that
holds the string `s`. -/
theorem ParseUint_of_not_isPort {s : GoString} (h : ¬ IsPort s) :
    ∃ v k, strconv.ParseUint s 16 = (v, some (.numError strconv.fnParseUint s k)) := by
  unfold strconv.ParseUint
  by_cases hne : s = []
  · rw [if_pos hne]; exact ⟨_, _, rfl⟩
  · rw [if_neg hne, if_neg (by omega)]
    apply parseUintLoop_err s s 0 (by omega)
    rintro ⟨hd, hv⟩
    exact h ⟨⟨hne, hd⟩, hv⟩

/-! ## Lemmas on `protoIANA` and `appendXpfRecord` -/

theorem protoIANA_udp : protoIANA (str "udp") = (17, none) := by decide

theorem protoIANA_tcp : protoIANA (str "tcp") = (6, none) := by decide

theorem protoIANA_other {proto : GoString} (h1 : proto ≠ str "udp") (h2 : proto ≠ str "tcp") :
    protoIANA proto =
      (0, some (.errorString (str "invalid network protocol: " ++ proto))) := by
  unfold protoIANA
  rw [if_neg h1, if_neg h2]

/-- With two parseable ports and a supported protocol `appendXpfRecord`
returns `nil` and appends the built record. -/
theorem appendXpfRecord_success (rrtype : Nat) (state : Request)
    (hp : IsPort state.W.Port) (hq : IsPort state.W.LocalPort)
    (hproto : state.W.Proto = str "udp" ∨ state.W.Proto = str "tcp") :
    appendXpfRecord rrtype state =
      (none, withExtra state (builtRR rrtype state (decimalValue state.W.Port)
        (decimalValue state.W.LocalPort) (protoIANA state.W.Proto).1)) := by
  have e1 : decimalValue state.W.Port % 2 ^ 16 = decimalValue state.W.Port :=
    Nat.mod_eq_of_lt (by have := hp.2; omega)
  have e2 : decimalValue state.W.LocalPort % 2 ^ 16 = decimalValue state.W.LocalPort :=
    Nat.mod_eq_of_lt (by have := hq.2; omega)
  unfold appendXpfRecord
  rw [ParseUint_of_isPort hp, ParseUint_of_isPort hq]
  rcases hproto with h | h
  · rw [h, protoIANA_udp]
    simp only [e1, e2, withExtra, builtRR]
  · rw [h, protoIANA_tcp]
    simp only [e1, e2, withExtra, builtRR]

/-- With an unparseable source port `appendXpfRecord` returns the error of
`ParseUint` on that string, and leaves the request as it was. -/
theorem appendXpfRecord_srcPort_error (rrtype : Nat) (state : Request)
    (hp : ¬ IsPort state.W.Port) :
    ∃ k, appendXpfRecord rrtype state =
      (some (.numError strconv.fnParseUint state.W.Port k), state) := by
  obtain ⟨v, k, h⟩ := ParseUint_of_not_isPort hp
  refine ⟨k, ?_⟩
  unfold appendXpfRecord
  rw [h]

/-- With a parseable source port and an unparseable destination port
`appendXpfRecord` returns the error of `ParseUint` on the destination port
string, and leaves the request as it was. -/
theorem appendXpfRecord_destPort_error (rrtype : Nat) (state : Request)
    (hp : IsPort state.W.Port) (hq : ¬ IsPort state.W.LocalPort) :
    ∃ k, appendXpfRecord rrtype state =
      (some (.numError strconv.fnParseUint state.W.LocalPort k), state) := by
  obtain ⟨v, k, h⟩ := ParseUint_of_not_isPort hq
  refine ⟨k, ?_⟩
  unfold appendXpfRecord
  rw [ParseUint_of_isPort hp, h]

/-- With two parseable ports and an unsupported protocol `appendXpfRecord`
returns the error of `protoIANA`, and leaves the request as it was. -/
theorem appendXpfRecord_proto_error (rrtype : Nat) (state : Request)
    (hp : IsPort state.W.Port) (hq : IsPort state.W.LocalPort)
    (h1 : state.W.Proto ≠ str "udp") (h2 : state.W.Proto ≠ str "tcp") :
    appendXpfRecord rrtype state =
      (some (.errorString (str "invalid network protocol: " ++ state.W.Proto)), state) := by
  unfold appendXpfRecord
  rw [ParseUint_of_isPort hp, ParseUint_of_isPort hq, protoIANA_other h1 h2]

/-- The error `appendXpfRecord` returns is `nil` exactly on a buildable
request. -/
theorem appendXpfRecord_nil_iff (rrtype : Nat) (state : Request) :
    (appendXpfRecord rrtype state).1 = none ↔ Buildable state.W := by
  constructor
  · intro h
    by_contra hb
    by_cases hp : IsPort state.W.Port
    · by_cases hq : IsPort state.W.LocalPort
      · by_cases h1 : state.W.Proto = str "udp"
        · exact hb ⟨hp, hq, Or.inl h1⟩
        · by_cases h2 : state.W.Proto = str "tcp"
          · exact hb ⟨hp, hq, Or.inr h2⟩
          · rw [appendXpfRecord_proto_error rrtype state hp hq h1 h2] at h
            exact Option.noConfusion h
      · obtain ⟨k, hk⟩ := appendXpfRecord_destPort_error rrtype state hp hq
        rw [hk] at h
        exact Option.noConfusion h
    · obtain ⟨k, hk⟩ := appendXpfRecord_srcPort_error rrtype state hp
      rw [hk] at h
      exact Option.noConfusion h
  · rintro ⟨hp, hq, hproto⟩
    rw [appendXpfRecord_success rrtype state hp hq hproto]

/-! ## Lemmas on `net.ParseIP` for dotted quads -/

/-- On decimal digits followed by something that is not a digit, the loop
of `dtoi` consumes exactly the digits. -/
theorem dtoiLoop_digits (ds rest : List Nat) (hrest : ∀ c, rest.head? = some c → ¬ IsDigit c) :
    ∀ n i, (∀ c ∈ ds, IsDigit c) → decimalFrom n ds < net.big →
      net.dtoiLoop (ds ++ rest) n i =
        if i + ds.length = 0 then (0, 0, false) else (decimalFrom n ds, i + ds.length, true) := by
  induction ds with
  | nil =>
    intro n i _ _
    cases rest with
    | nil => simp [net.dtoiLoop, decimalFrom]
    | cons c r =>
      have hc : ¬ IsDigit c := hrest c rfl
      unfold IsDigit at hc
      simp [net.dtoiLoop, decimalFrom, hc]
  | cons c ds ih =>
    intro n i hd hv
    have hc : IsDigit c := hd c (List.mem_cons_self _ _)
    have hl : ∀ x ∈ ds, IsDigit x := fun x hx => hd x (List.mem_cons_of_mem _ hx)
    rw [decimalFrom_cons] at hv
    have h1 : n * 10 + (c - 48) < net.big := Nat.lt_of_le_of_lt (le_decimalFrom ds _) hv
    unfold IsDigit at hc
    rw [List.cons_append, net.dtoiLoop, if_pos hc]
    simp only []
    rw [if_neg (by omega), ih _ _ hl hv, decimalFrom_cons]
    have e : i + 1 + ds.length = i + (c :: ds).length := by
      simp only [List.length_cons]; omega
    rw [e, if_neg (by simp)]

/-- On an octet followed by something that is not a digit, `dtoi` returns
the value of the octet and its length. -/
theorem dtoi_octet {a : GoString} (rest : List Nat) (ha : IsOctet a)
    (hrest : ∀ c, rest.head? = some c → ¬ IsDigit c) :
    net.dtoi (a ++ rest) = (decimalValue a, a.length, true) := by
  obtain ⟨⟨hne, hd⟩, hv, _⟩ := ha
  have hbig : decimalFrom 0 a < net.big := by
    have : decimalValue a = decimalFrom 0 a := rfl
    have hb : net.big = 16777215 := by decide
    omega
  unfold net.dtoi
  rw [dtoiLoop_digits a rest hrest 0 0 hd hbig]
  have hlen : 0 + a.length ≠ 0 := by
    cases a with
    | nil => exact absurd rfl hne
    | cons c r => simp
  rw [if_neg hlen, Nat.zero_add]
  rfl

theorem head?_append_of_ne_nil {a : List Nat} (rest : List Nat) (hne : a ≠ []) :
    (a ++ rest).head? = a.head? := by
  cases a with
  | nil => exact absurd rfl hne
  | cons c r => rfl

/-- One iteration of the loop of `parseIPv4` at the first octet. -/
theorem parseIPv4Loop_first {a : GoString} (todo : Nat) (rest p : List Nat) (ha : IsOctet a)
    (hrest : ∀ c, rest.head? = some c → ¬ IsDigit c) :
    net.parseIPv4Loop (todo + 1) 0 (a ++ rest) p =
      net.parseIPv4Loop todo 1 rest (p.set 0 (decimalValue a)) := by
  have hne : a ≠ [] := ha.1.1
  have hlen : (a ++ rest).length ≠ 0 := by
    cases a with
    | nil => exact absurd rfl hne
    | cons c r => simp
  have hz : ¬ (1 < a.length ∧ (a ++ rest).head? = some 48) := by
    rintro ⟨h1, h2⟩
    rw [head?_append_of_ne_nil rest hne] at h2
    exact ha.2.2 h1 h2
  have hv : decimalValue a % 256 = decimalValue a := Nat.mod_eq_of_lt (by have := ha.2.1; omega)
  rw [net.parseIPv4Loop, if_neg hlen, if_neg (by simp)]
  simp only [Nat.lt_irrefl, if_false, gt_iff_lt]
  rw [dtoi_octet rest ha hrest]
  simp only []
  rw [if_neg (by have := ha.2.1; simp; omega), if_neg hz, List.drop_left, hv]

/-- One iteration of the loop of `parseIPv4` at a later octet, which a dot
precedes. -/
theorem parseIPv4Loop_next {a : GoString} (todo i : Nat) (rest p : List Nat) (ha : IsOctet a)
    (hrest : ∀ c, rest.head? = some c → ¬ IsDigit c) :
    net.parseIPv4Loop (todo + 1) (i + 1) (46 :: (a ++ rest)) p =
      net.parseIPv4Loop todo (i + 2) rest (p.set (i + 1) (decimalValue a)) := by
  have hne : a ≠ [] := ha.1.1
  have hz : ¬ (1 < a.length ∧ (a ++ rest).head? = some 48) := by
    rintro ⟨h1, h2⟩
    rw [head?_append_of_ne_nil rest hne] at h2
    exact ha.2.2 h1 h2
  have hv : decimalValue a % 256 = decimalValue a := Nat.mod_eq_of_lt (by have := ha.2.1; omega)
  rw [net.parseIPv4Loop, if_neg (by simp), if_neg (by simp)]
  simp only [gt_iff_lt, Nat.zero_lt_succ, if_true, List.drop_succ_cons, List.drop_zero]
  rw [dtoi_octet rest ha hrest]
  simp only []
  rw [if_neg (by have := ha.2.1; simp; omega), if_neg hz, List.drop_left, hv]

theorem head?_dot_not_digit (l : List Nat) : ∀ c, (46 :: l).head? = some c → ¬ IsDigit c := by
  intro c h
  simp only [List.head?_cons, Option.some.injEq] at h
  subst h
  unfold IsDigit
  omega

theorem head?_nil_not_digit : ∀ c, ([] : List Nat).head? = some c → ¬ IsDigit c := by
  intro c h
  simp at h

/-- The function `parseIPv4` on a dotted quad returns the 16-byte form of
the four octet values. -/
theorem parseIPv4_dottedQuad {a b c d : GoString} (ha : IsOctet a) (hb : IsOctet b)
    (hc : IsOctet c) (hd : IsOctet d) :
    net.parseIPv4 (dottedQuad a b c d) =
      net.IPv4 (decimalValue a) (decimalValue b) (decimalValue c) (decimalValue d) := by
  unfold net.parseIPv4 dottedQuad
  have e : net.IPv4len = 3 + 1 := rfl
  rw [e, parseIPv4Loop_first 3 _ _ ha (head?_dot_not_digit _),
    parseIPv4Loop_next 2 0 _ _ hb (head?_dot_not_digit _),
    parseIPv4Loop_next 1 1 _ _ hc (head?_dot_not_digit _)]
  have e4 : d = d ++ [] := (List.append_nil d).symm
  rw [e4, parseIPv4Loop_next 0 2 _ _ hd head?_nil_not_digit]
  simp [net.parseIPv4Loop]

/-- The scan of `net.ParseIP` passes over decimal digits and stops at the
first dot. -/
theorem parseIPScan_digits_dot (s : GoString) (ds rest : List Nat) (hd : ∀ c ∈ ds, IsDigit c) :
    net.parseIPScan s (ds ++ 46 :: rest) = net.parseIPv4 s := by
  induction ds with
  | nil => simp [net.parseIPScan]
  | cons c ds ih =>
    have hc : IsDigit c := hd c (List.mem_cons_self _ _)
    unfold IsDigit at hc
    rw [List.cons_append, net.parseIPScan, if_neg (by omega), if_neg (by omega)]
    exact ih (fun x hx => hd x (List.mem_cons_of_mem _ hx))

/-- The function `net.ParseIP` on a dotted quad returns the 16-byte form of
the four octet values. -/
theorem ParseIP_dottedQuad {a b c d : GoString} (ha : IsOctet a) (hb : IsOctet b)
    (hc : IsOctet c) (hd : IsOctet d) :
    net.ParseIP (dottedQuad a b c d) =
      net.IPv4 (decimalValue a) (decimalValue b) (decimalValue c) (decimalValue d) := by
  rw [← parseIPv4_dottedQuad ha hb hc hd]
  unfold net.ParseIP
  exact parseIPScan_digits_dot _ a _ ha.1.2

/-- Every iteration of the loop of `parseIPv6` that does not leave it adds 2
to `i`, so more fuel than `(IPv6len - i) / 2` iterations changes nothing:
the 8 iterations given in `parseIPv6` are all the loop can make. -/
theorem parseIPv6Loop_fuel (k : Nat) :
    ∀ (fuel : Nat) (st : net.V6State), net.IPv6len ≤ st.i + 2 * fuel →
      net.parseIPv6Loop (fuel + k) st = net.parseIPv6Loop fuel st := by
  intro fuel
  induction fuel with
  | zero =>
    intro st h
    cases k with
    | zero => rfl
    | succ k =>
      rw [Nat.zero_add, net.parseIPv6Loop, net.parseIPv6Loop, if_pos (by omega)]
  | succ fuel ih =>
    intro st h
    rw [show fuel + 1 + k = (fuel + k) + 1 by omega]
    simp only [net.parseIPv6Loop]
    have e : ∀ st' : net.V6State, st'.i = st.i + 2 →
        net.parseIPv6Loop (fuel + k) st' = net.parseIPv6Loop fuel st' :=
      fun st' h' => ih st' (by omega)
    rw [e _ rfl, e _ rfl]

/-- The method `To4` on the 16-byte form of an IPv4 address returns its four
bytes. -/
theorem To4_IPv4 (a b c d : Nat) : net.To4 (net.IPv4 a b c d) = [a, b, c, d] := by
  simp [net.To4, net.IPv4, net.v4InV6Prefix, net.IPv4len, net.IPv6len, net.isZeros]

/-- The method `To4` returns `nil` or four bytes. -/
theorem To4_length (ip : net.IP) : (net.To4 ip).length = 0 ∨ (net.To4 ip).length = 4 := by
  unfold net.To4
  split
  · right; assumption
  · split
    · rename_i h
      right
      have h16 : ip.length = 16 := h.1
      simp [List.length_drop, List.length_take, h16]
    · left; rfl

/-- The method `To16` returns `nil` or sixteen bytes. -/
theorem To16_length (ip : net.IP) : (net.To16 ip).length = 0 ∨ (net.To16 ip).length = 16 := by
  unfold net.To16
  split
  · right; simp [net.IPv4, net.v4InV6Prefix]
  · split
    · right; assumption
    · left; rfl

theorem protoIANA_fst_of_supported {proto : GoString}
    (h : proto = str "udp" ∨ proto = str "tcp") :
    (protoIANA proto).1 = if proto = str "udp" then 17 else 6 := by
  rcases h with h | h
  · rw [h, protoIANA_udp]; rfl
  · rw [h, protoIANA_tcp]; rfl

theorem familyFields_ipv4 {state : Request} (h : state.W.Family = 1) :
    familyFields state =
      { IPVersion := 4
        SrcAddress := net.To4 (net.ParseIP state.W.IP)
        DestAddress := net.To4 (net.ParseIP state.W.LocalIP) } := by
  unfold familyFields
  rw [if_pos h]

theorem familyFields_ipv6 {state : Request} (h : state.W.Family = 2) :
    familyFields state =
      { IPVersion := 6
        SrcAddress := net.To16 (net.ParseIP state.W.IP)
        DestAddress := net.To16 (net.ParseIP state.W.LocalIP) } := by
  unfold familyFields
  rw [if_neg (by omega), if_pos h]

theorem familyFields_other {state : Request} (h1 : state.W.Family ≠ 1)
    (h2 : state.W.Family ≠ 2) : familyFields state = {} := by
  unfold familyFields
  rw [if_neg h1, if_neg h2]

/-! ## The claims -/

/-- C1: for an IPv4 endpoint (family 1) whose source and destination IP
strings are dotted quads, whose port strings are base-10 integers of at most
65535 and whose protocol is "udp" or "tcp", `appendXpfRecord` returns no
error and appends the record with IP version 4, the four octets of each
address, the two port numbers and the IANA number of the protocol. -/
theorem C1_appendXpfRecord_ipv4 (rrtype : Nat) (state : Request)
    (a b c d a' b' c' d' : GoString)
    (hfam : state.W.Family = 1)
    (hsrc : state.W.IP = dottedQuad a b c d)
    (ha : IsOctet a) (hb : IsOctet b) (hc : IsOctet c) (hd : IsOctet d)
    (hdst : state.W.LocalIP = dottedQuad a' b' c' d')
    (ha' : IsOctet a') (hb' : IsOctet b') (hc' : IsOctet c') (hd' : IsOctet d')
    (hp : IsPort state.W.Port) (hq : IsPort state.W.LocalPort)
    (hproto : state.W.Proto = str "udp" ∨ state.W.Proto = str "tcp") :
    appendXpfRecord rrtype state =
      (none,
       { state with
         Req := { state.Req with
           Extra := state.Req.Extra ++
             [dns.RR.PrivateRR { Name := str ".", Rrtype := rrtype, Class := 1, Ttl := 0 }
               { IPVersion := 4
                 Protocol := if state.W.Proto = str "udp" then 17 else 6
                 SrcAddress := [decimalValue a, decimalValue b, decimalValue c, decimalValue d]
                 DestAddress :=
                   [decimalValue a', decimalValue b', decimalValue c', decimalValue d']
                 SrcPort := decimalValue state.W.Port
                 DestPort := decimalValue state.W.LocalPort }] } }) := by
  rw [appendXpfRecord_success rrtype state hp hq hproto, protoIANA_fst_of_supported hproto]
  unfold withExtra builtRR
  rw [familyFields_ipv4 hfam, hsrc, hdst, ParseIP_dottedQuad ha hb hc hd,
    ParseIP_dottedQuad ha' hb' hc' hd', To4_IPv4, To4_IPv4]

/-- C1 at 192.0.2.1:5353 to 192.0.2.2:53 over UDP: version 4, protocol 17,
ports 5353 and 53, addresses [192,0,2,1] and [192,0,2,2]. -/
theorem C1_witness :
    appendXpfRecord 65422 { W := exampleWriter, Req := { Extra := [] } } =
      (none,
       { W := exampleWriter
         Req := { Extra :=
           [dns.RR.PrivateRR { Name := [46], Rrtype := 65422, Class := 1, Ttl := 0 }
             { IPVersion := 4, Protocol := 17, SrcAddress := [192, 0, 2, 1],
               DestAddress := [192, 0, 2, 2], SrcPort := 5353, DestPort := 53 }] } }) :=
  C1_appendXpfRecord_ipv4 65422 { W := exampleWriter, Req := { Extra := [] } }
    (str "192") (str "0") (str "2") (str "1") (str "192") (str "0") (str "2") (str "2")
    rfl rfl (by decide) (by decide) (by decide) (by decide)
    rfl (by decide) (by decide) (by decide) (by decide)
    (by decide) (by decide) (Or.inl rfl)

/-- C2: `protoIANA` returns 17 and no error for "udp", 6 and no error for
"tcp", and for every other string an error whose message is
"invalid network protocol: " followed by that string; the empty string and
"UDP" are such strings. -/
theorem C2_protoIANA :
    protoIANA (str "udp") = (17, none) ∧
    protoIANA (str "tcp") = (6, none) ∧
    (∀ proto : GoString, proto ≠ str "udp" → proto ≠ str "tcp" →
      protoIANA proto =
        (0, some (.errorString (str "invalid network protocol: " ++ proto)))) ∧
    protoIANA (str "") = (0, some (.errorString (str "invalid network protocol: "))) ∧
    protoIANA (str "UDP") = (0, some (.errorString (str "invalid network protocol: UDP"))) :=
  ⟨protoIANA_udp, protoIANA_tcp, fun _ h1 h2 => protoIANA_other h1 h2, by decide, by decide⟩

/-- C2 at the name "icmp": the error message names "icmp". -/
theorem C2_witness :
    protoIANA (str "icmp") =
      (0, some (.errorString (str "invalid network protocol: icmp"))) :=
  C2_protoIANA.2.2.1 (str "icmp") (by decide) (by decide)

/-- C3: `appendXpfRecord` returns an error if and only if the source port
string is not a base-10 unsigned integer in 0..65535, or the destination
port string is not one, or the protocol is neither "udp" nor "tcp"; and the
error it returns is the same for any other record type and any other request
with the same two port strings and the same protocol name, whatever the
address family, the IP strings and the message. -/
theorem C3_appendXpfRecord_error_iff (rrtype : Nat) (state : Request) :
    ((appendXpfRecord rrtype state).1 ≠ none ↔
      (¬ IsPort state.W.Port ∨ ¬ IsPort state.W.LocalPort ∨
        (state.W.Proto ≠ str "udp" ∧ state.W.Proto ≠ str "tcp"))) ∧
    (∀ (rrtype' : Nat) (state' : Request),
      state'.W.Port = state.W.Port → state'.W.LocalPort = state.W.LocalPort →
      state'.W.Proto = state.W.Proto →
      (appendXpfRecord rrtype' state').1 = (appendXpfRecord rrtype state).1) := by
  constructor
  · rw [Ne, appendXpfRecord_nil_iff]
    unfold Buildable
    constructor
    · intro h
      by_cases hp : IsPort state.W.Port
      · by_cases hq : IsPort state.W.LocalPort
        · right; right
          exact ⟨fun h1 => h ⟨hp, hq, Or.inl h1⟩, fun h2 => h ⟨hp, hq, Or.inr h2⟩⟩
        · right; left; exact hq
      · left; exact hp
    · rintro (h | h | ⟨h1, h2⟩) ⟨hp, hq, hproto⟩
      · exact h hp
      · exact h hq
      · rcases hproto with h | h
        · exact h1 h
        · exact h2 h
  · intro rrtype' state' h1 h2 h3
    unfold appendXpfRecord
    rw [h1, h2, h3]
    split
    · rfl
    · split
      · rfl
      · split <;> rfl

/-- C3 at the port strings "70000" and "abc": both fail, as source port and
as destination port. -/
theorem C3_witness :
    (appendXpfRecord 65422
      { W := { exampleWriter with Port := str "70000" }, Req := { Extra := [] } }).1 ≠ none ∧
    (appendXpfRecord 65422
      { W := { exampleWriter with LocalPort := str "abc" }, Req := { Extra := [] } }).1 ≠ none :=
  ⟨(C3_appendXpfRecord_error_iff 65422 _).1.2 (Or.inl (by decide)),
   (C3_appendXpfRecord_error_iff 65422 _).1.2 (Or.inr (Or.inl (by decide)))⟩

/-- C10: for a request whose address family is neither 1 nor 2, with two
parseable ports and a supported protocol, `appendXpfRecord` returns no error
and appends a record with IP version 0 and empty source and destination
addresses, whose ports and protocol are those of the request. -/
theorem C10_appendXpfRecord_other_family (rrtype : Nat) (state : Request)
    (hf1 : state.W.Family ≠ 1) (hf2 : state.W.Family ≠ 2)
    (hp : IsPort state.W.Port) (hq : IsPort state.W.LocalPort)
    (hproto : state.W.Proto = str "udp" ∨ state.W.Proto = str "tcp") :
    appendXpfRecord rrtype state =
      (none,
       { state with
         Req := { state.Req with
           Extra := state.Req.Extra ++
             [dns.RR.PrivateRR { Name := str ".", Rrtype := rrtype, Class := 1, Ttl := 0 }
               { IPVersion := 0
                 Protocol := if state.W.Proto = str "udp" then 17 else 6
                 SrcAddress := []
                 DestAddress := []
                 SrcPort := decimalValue state.W.Port
                 DestPort := decimalValue state.W.LocalPort }] } }) := by
  rw [appendXpfRecord_success rrtype state hp hq hproto, protoIANA_fst_of_supported hproto]
  unfold withExtra builtRR
  rw [familyFields_other hf1 hf2]

/-- C10 at family 3 over TCP from port 40000 to port 53. -/
theorem C10_witness :
    appendXpfRecord 65422
        { W := { exampleWriter with Family := 3, Port := str "40000", Proto := str "tcp" }
          Req := { Extra := [] } } =
      (none,
       { W := { exampleWriter with Family := 3, Port := str "40000", Proto := str "tcp" }
         Req := { Extra :=
           [dns.RR.PrivateRR { Name := [46], Rrtype := 65422, Class := 1, Ttl := 0 }
             { IPVersion := 0, Protocol := 6, SrcAddress := [], DestAddress := [],
               SrcPort := 40000, DestPort := 53 }] } }) :=
  C10_appendXpfRecord_other_family 65422 _ (by decide) (by decide) (by decide) (by decide)
    (Or.inr rfl)

/-- C4, as stated, fails at the string "abc": the error returned when
"abc" is the source port (destination port "53") and the error returned
when "abc" is the destination port (source port "5353") are the same value,
the `NumError` of `ParseUint` on "abc". -/
theorem C4_counterexample :
    (appendXpfRecord 65422
      { W := { exampleWriter with Port := str "abc" }, Req := { Extra := [] } }).1 =
      some (.numError (str "ParseUint") (str "abc") .ErrSyntax) ∧
    (appendXpfRecord 65422
      { W := { exampleWriter with LocalPort := str "abc" }, Req := { Extra := [] } }).1 =
      some (.numError (str "ParseUint") (str "abc") .ErrSyntax) := by
  constructor <;> decide

/-- C4, amended: when a port string `s` cannot be parsed, the error
`appendXpfRecord` returns is the `NumError` of `ParseUint`, which holds the
string `s` and not the port field: the error returned when `s` is the source
port equals the error returned when `s` is the destination port and the
source port is valid. -/
theorem C4_port_error_same_for_both_fields (rrtype rrtype' : Nat) (state state' : Request)
    (s : GoString) (hs : ¬ IsPort s)
    (hsrc : state.W.Port = s)
    (hvalid : IsPort state'.W.Port) (hdst : state'.W.LocalPort = s) :
    (appendXpfRecord rrtype state).1 = (appendXpfRecord rrtype' state').1 ∧
    ∃ k, (appendXpfRecord rrtype state).1 = some (.numError (str "ParseUint") s k) := by
  obtain ⟨v, k, h⟩ := ParseUint_of_not_isPort hs
  have e1 : (appendXpfRecord rrtype state).1 = some (.numError (str "ParseUint") s k) := by
    unfold appendXpfRecord
    rw [hsrc, h]
    rfl
  have e2 : (appendXpfRecord rrtype' state').1 = some (.numError (str "ParseUint") s k) := by
    unfold appendXpfRecord
    rw [ParseUint_of_isPort hvalid, hdst, h]
    rfl
  exact ⟨e1.trans e2.symm, k, e1⟩

/-- C4, amended, at the string "70000". -/
theorem C4_witness :
    (appendXpfRecord 65422
      { W := { exampleWriter with Port := str "70000" }, Req := { Extra := [] } }).1 =
    (appendXpfRecord 65422
      { W := { exampleWriter with LocalPort := str "70000" }, Req := { Extra := [] } }).1 :=
  (C4_port_error_same_for_both_fields 65422 65422
    { W := { exampleWriter with Port := str "70000" }, Req := { Extra := [] } }
    { W := { exampleWriter with LocalPort := str "70000" }, Req := { Extra := [] } }
    (str "70000") (by decide) rfl (by decide) rfl).1

/-- C5: when `appendXpfRecord` succeeds on a message whose additional
section holds N records, the section afterwards holds N+1 records: the
original ones, unchanged and in order, followed by the new XPF record; a
second call on the result succeeds too and leaves N+2 records, the original
ones followed by two XPF records. -/
theorem C5_append_keeps_existing (rrtype : Nat) (state : Request)
    (h : (appendXpfRecord rrtype state).1 = none) :
    ∃ data : XPFPrivateRR,
      (appendXpfRecord rrtype state).2.Req.Extra =
        state.Req.Extra ++
          [dns.RR.PrivateRR { Name := str ".", Rrtype := rrtype, Class := 1, Ttl := 0 } data] ∧
      (appendXpfRecord rrtype state).2.Req.Extra.length = state.Req.Extra.length + 1 ∧
      (appendXpfRecord rrtype state).2.Req.Extra.take state.Req.Extra.length =
        state.Req.Extra ∧
      (appendXpfRecord rrtype (appendXpfRecord rrtype state).2).1 = none ∧
      (appendXpfRecord rrtype (appendXpfRecord rrtype state).2).2.Req.Extra =
        state.Req.Extra ++
          [dns.RR.PrivateRR { Name := str ".", Rrtype := rrtype, Class := 1, Ttl := 0 } data,
           dns.RR.PrivateRR { Name := str ".", Rrtype := rrtype, Class := 1, Ttl := 0 } data] ∧
      (appendXpfRecord rrtype (appendXpfRecord rrtype state).2).2.Req.Extra.length =
        state.Req.Extra.length + 2 := by
  obtain ⟨hp, hq, hproto⟩ := (appendXpfRecord_nil_iff rrtype state).1 h
  have e1 := appendXpfRecord_success rrtype state hp hq hproto
  have e2 := appendXpfRecord_success rrtype (withExtra state (builtRR rrtype state
    (decimalValue state.W.Port) (decimalValue state.W.LocalPort) (protoIANA state.W.Proto).1))
    hp hq hproto
  refine ⟨{ familyFields state with
            SrcPort := decimalValue state.W.Port
            DestPort := decimalValue state.W.LocalPort
            Protocol := (protoIANA state.W.Proto).1 }, ?_⟩
  rw [e1, e2]
  simp [withExtra, builtRR, familyFields]

/-- C5 on a message that already holds one record of another kind. -/
theorem C5_witness :
    ∃ data : XPFPrivateRR,
      (appendXpfRecord 65422 { W := exampleWriter, Req := { Extra := [exampleOther] } }
        ).2.Req.Extra =
        [exampleOther,
          dns.RR.PrivateRR { Name := str ".", Rrtype := 65422, Class := 1, Ttl := 0 } data] :=
  let ⟨data, h, _⟩ := C5_append_keeps_existing 65422
    { W := exampleWriter, Req := { Extra := [exampleOther] } } (by decide)
  ⟨data, h⟩

theorem ServeDNS_of_error (xpf : XPF) (w : ResponseWriter) (r : dns.Msg) {e : GoError}
    {st : Request} (h : appendXpfRecord xpf.rrtype { W := w, Req := r } = (some e, st)) :
    xpf.ServeDNS w r =
      { rc := 0
        err := some (.xpfError (str "failed to append the XPF record to the DNS request"))
        r := st.Req, forwarded := none } := by
  simp only [XPF.ServeDNS, h]

theorem ServeDNS_of_ok (xpf : XPF) (w : ResponseWriter) (r : dns.Msg)
    {st : Request} (h : appendXpfRecord xpf.rrtype { W := w, Req := r } = (none, st)) :
    xpf.ServeDNS w r = NextOrFailure xpf.Name xpf.Next w st.Req := by
  simp only [XPF.ServeDNS, h]

theorem appendXpfRecord_snd_W (rrtype : Nat) (state : Request) :
    (appendXpfRecord rrtype state).2.W = state.W := by
  unfold appendXpfRecord
  split
  · rfl
  · split
    · rfl
    · split <;> rfl

theorem NextOrFailure_forwarded (name : GoString) (next : Option Handler) (w : ResponseWriter)
    (r m : dns.Msg) (h : (NextOrFailure name next w r).forwarded = some m) : m = r := by
  unfold NextOrFailure at h
  cases next with
  | none => exact Option.noConfusion h
  | some hd => exact (Option.some.inj h).symm

/-- C6: when `appendXpfRecord` fails on a query, `ServeDNS` does not invoke
the next handler and returns status code 0 with the fixed error
"failed to append the XPF record to the DNS request", whatever the cause;
and when the next handler is invoked, `appendXpfRecord` had succeeded and
the handler received the message it produced. -/
theorem C6_ServeDNS_failure (xpf : XPF) (w : ResponseWriter) (r : dns.Msg) :
    ((appendXpfRecord xpf.rrtype { W := w, Req := r }).1 ≠ none →
      (xpf.ServeDNS w r).forwarded = none ∧
      (xpf.ServeDNS w r).rc = 0 ∧
      (xpf.ServeDNS w r).err =
        some (.xpfError (str "failed to append the XPF record to the DNS request"))) ∧
    (∀ m, (xpf.ServeDNS w r).forwarded = some m →
      appendXpfRecord xpf.rrtype { W := w, Req := r } = (none, { W := w, Req := m })) := by
  have hW := appendXpfRecord_snd_W xpf.rrtype { W := w, Req := r }
  rcases hres : appendXpfRecord xpf.rrtype { W := w, Req := r } with ⟨err, st⟩
  rw [hres] at hW
  cases err with
  | some e =>
    rw [ServeDNS_of_error xpf w r hres]
    exact ⟨fun _ => ⟨rfl, rfl, rfl⟩, fun m hm => Option.noConfusion hm⟩
  | none =>
    rw [ServeDNS_of_ok xpf w r hres]
    refine ⟨fun h => absurd rfl h, fun m hm => ?_⟩
    have hm' := NextOrFailure_forwarded _ _ _ _ _ hm
    have hst : st = { W := w, Req := m } := by
      cases st with
      | mk sw sr =>
        simp only at hW hm'
        rw [hW, hm']
    rw [hst]

/-- C6 at three failing queries, one for each cause (source port "70000",
destination port "abc", protocol "icmp"), on an instance that has a next
handler: the handler is not invoked, the status code is 0 and the error is
the same fixed one. -/
theorem C6_witness :
    (∀ w ∈ [{ exampleWriter with Port := str "70000" },
            { exampleWriter with LocalPort := str "abc" },
            { exampleWriter with Proto := str "icmp" }],
      (XPF.ServeDNS { rrtype := 65422, Next := some exampleNext } w { Extra := [] }).forwarded =
        none ∧
      (XPF.ServeDNS { rrtype := 65422, Next := some exampleNext } w { Extra := [] }).rc = 0 ∧
      (XPF.ServeDNS { rrtype := 65422, Next := some exampleNext } w { Extra := [] }).err =
        some (.xpfError (str "failed to append the XPF record to the DNS request"))) := by
  intro w hw
  simp only [List.mem_cons, List.mem_singleton, List.not_mem_nil, or_false] at hw
  rcases hw with rfl | rfl | rfl
  · exact (C6_ServeDNS_failure { rrtype := 65422, Next := some exampleNext } _ _).1 (by decide)
  · exact (C6_ServeDNS_failure { rrtype := 65422, Next := some exampleNext } _ _).1 (by decide)
  · exact (C6_ServeDNS_failure { rrtype := 65422, Next := some exampleNext } _ _).1 (by decide)

/-- C7, as stated, fails on two requests that `appendXpfRecord` accepts:
with address family 3 the appended record has IP version 0 and empty
addresses, and with family 1 and the source IP string "not-an-ip" the record
has IP version 4 and an empty source address; neither record satisfies the
invariant. -/
theorem C7_counterexample :
    (appendXpfRecord 65422
        { W := { exampleWriter with Family := 3 }, Req := { Extra := [] } } =
      (none,
       { W := { exampleWriter with Family := 3 }
         Req := { Extra :=
           [dns.RR.PrivateRR { Name := [46], Rrtype := 65422, Class := 1, Ttl := 0 }
             { IPVersion := 0, Protocol := 17, SrcAddress := [], DestAddress := [],
               SrcPort := 5353, DestPort := 53 }] } }) ∧
      ¬ XPFPrivateRR.WellFormed
          { IPVersion := 0, Protocol := 17, SrcAddress := [], DestAddress := [],
            SrcPort := 5353, DestPort := 53 }) ∧
    (appendXpfRecord 65422
        { W := { exampleWriter with IP := str "not-an-ip" }, Req := { Extra := [] } } =
      (none,
       { W := { exampleWriter with IP := str "not-an-ip" }
         Req := { Extra :=
           [dns.RR.PrivateRR { Name := [46], Rrtype := 65422, Class := 1, Ttl := 0 }
             { IPVersion := 4, Protocol := 17, SrcAddress := [], DestAddress := [192, 0, 2, 2],
               SrcPort := 5353, DestPort := 53 }] } }) ∧
      ¬ XPFPrivateRR.WellFormed
          { IPVersion := 4, Protocol := 17, SrcAddress := [], DestAddress := [192, 0, 2, 2],
            SrcPort := 5353, DestPort := 53 }) := by
  refine ⟨⟨?_, ?_⟩, ⟨?_, ?_⟩⟩ <;> decide

/-- C7, amended: for every request with address family 1 or 2 on which
`appendXpfRecord` succeeds, the appended record has IP version 4 (family 1)
or 6 (family 2), each of its two addresses is empty or exactly 4 bytes long
when the IP version is 4 and empty or exactly 16 bytes long when it is 6,
and the record satisfies the invariant whenever both addresses are
non-empty. -/
theorem C7_record_shape (rrtype : Nat) (state : Request)
    (hfam : state.W.Family = 1 ∨ state.W.Family = 2)
    (h : (appendXpfRecord rrtype state).1 = none) :
    ∃ (hdr : dns.RR_Header) (data : XPFPrivateRR),
      (appendXpfRecord rrtype state).2.Req.Extra =
        state.Req.Extra ++ [dns.RR.PrivateRR hdr data] ∧
      ((state.W.Family = 1 ∧ data.IPVersion = 4 ∧
          (data.SrcAddress.length = 0 ∨ data.SrcAddress.length = 4) ∧
          (data.DestAddress.length = 0 ∨ data.DestAddress.length = 4)) ∨
       (state.W.Family = 2 ∧ data.IPVersion = 6 ∧
          (data.SrcAddress.length = 0 ∨ data.SrcAddress.length = 16) ∧
          (data.DestAddress.length = 0 ∨ data.DestAddress.length = 16))) ∧
      (data.SrcAddress ≠ [] → data.DestAddress ≠ [] → data.WellFormed) := by
  obtain ⟨hp, hq, hproto⟩ := (appendXpfRecord_nil_iff rrtype state).1 h
  rw [appendXpfRecord_success rrtype state hp hq hproto]
  unfold withExtra builtRR
  refine ⟨_, _, rfl, ?_⟩
  rcases hfam with hf | hf
  · rw [familyFields_ipv4 hf]
    have h1 := To4_length (net.ParseIP state.W.IP)
    have h2 := To4_length (net.ParseIP state.W.LocalIP)
    refine ⟨Or.inl ⟨hf, rfl, h1, h2⟩, ?_⟩
    intro hs hd
    left
    refine ⟨rfl, ?_, ?_⟩
    · rcases h1 with h1 | h1
      · exact absurd (List.length_eq_zero.mp h1) hs
      · exact h1
    · rcases h2 with h2 | h2
      · exact absurd (List.length_eq_zero.mp h2) hd
      · exact h2
  · rw [familyFields_ipv6 hf]
    have h1 := To16_length (net.ParseIP state.W.IP)
    have h2 := To16_length (net.ParseIP state.W.LocalIP)
    refine ⟨Or.inr ⟨hf, rfl, h1, h2⟩, ?_⟩
    intro hs hd
    right
    refine ⟨rfl, ?_, ?_⟩
    · rcases h1 with h1 | h1
      · exact absurd (List.length_eq_zero.mp h1) hs
      · exact h1
    · rcases h2 with h2 | h2
      · exact absurd (List.length_eq_zero.mp h2) hd
      · exact h2

/-- C7, amended, at an IPv6 request from [2001:db8::1]:5353 to [::1]:53. -/
theorem C7_witness :
    ∃ (hdr : dns.RR_Header) (data : XPFPrivateRR),
      (appendXpfRecord 65422
        { W := { exampleWriter with
                 Family := 2, IP := str "2001:db8::1", LocalIP := str "::1" }
          Req := { Extra := [] } }).2.Req.Extra = [] ++ [dns.RR.PrivateRR hdr data] ∧
      (data.SrcAddress ≠ [] → data.DestAddress ≠ [] → data.WellFormed) :=
  let ⟨hdr, data, h1, _, h3⟩ := C7_record_shape 65422
    { W := { exampleWriter with Family := 2, IP := str "2001:db8::1", LocalIP := str "::1" }
      Req := { Extra := [] } } (Or.inr rfl) (by decide)
  ⟨hdr, data, h1, h3⟩

/-- C8: for every record type and every request on which `appendXpfRecord`
succeeds, the appended record, the last of the additional section, has the
header with owner name ".", the given record type, class 1 and TTL 0; `New`
returns an instance whose record type is 65422 with a nil error, and the
record such an instance appends in `ServeDNS` has record type 65422. -/
theorem C8_header (rrtype : Nat) (state : Request)
    (h : (appendXpfRecord rrtype state).1 = none) :
    (∃ data : XPFPrivateRR,
      (appendXpfRecord rrtype state).2.Req.Extra.getLast? =
        some (dns.RR.PrivateRR { Name := str ".", Rrtype := rrtype, Class := 1, Ttl := 0 }
          data)) ∧
    New.1.rrtype = 65422 ∧ New.2 = none ∧
    (∃ data : XPFPrivateRR,
      (New.1.ServeDNS state.W state.Req).r.Extra.getLast? =
        some (dns.RR.PrivateRR { Name := str ".", Rrtype := 65422, Class := 1, Ttl := 0 }
          data)) := by
  obtain ⟨hp, hq, hproto⟩ := (appendXpfRecord_nil_iff rrtype state).1 h
  refine ⟨?_, rfl, rfl, ?_⟩
  · rw [appendXpfRecord_success rrtype state hp hq hproto]
    exact ⟨{ familyFields state with
             SrcPort := decimalValue state.W.Port
             DestPort := decimalValue state.W.LocalPort
             Protocol := (protoIANA state.W.Proto).1 }, by simp [withExtra, builtRR]⟩
  · have e := appendXpfRecord_success New.1.rrtype { W := state.W, Req := state.Req } hp hq hproto
    rw [ServeDNS_of_ok New.1 state.W state.Req e]
    exact ⟨{ familyFields { W := state.W, Req := state.Req } with
             SrcPort := decimalValue state.W.Port
             DestPort := decimalValue state.W.LocalPort
             Protocol := (protoIANA state.W.Proto).1 },
      by simp [NextOrFailure, New, withExtra, builtRR, DefaultTypeXPF]⟩

/-- C8 at the example request, on a message that already holds one record. -/
theorem C8_witness :
    ∃ data : XPFPrivateRR,
      (appendXpfRecord 99 { W := exampleWriter, Req := { Extra := [exampleOther] } }
        ).2.Req.Extra.getLast? =
        some (dns.RR.PrivateRR { Name := str ".", Rrtype := 99, Class := 1, Ttl := 0 } data) :=
  (C8_header 99 { W := exampleWriter, Req := { Extra := [exampleOther] } } (by decide)).1

/-- C9: the record codec round-trips: for every well-formed record (IP
version 4 with two 4-byte addresses, or IP version 6 with two 16-byte
addresses) whose fields are in the range of their types, decoding the bytes
that encoding produces yields the record again. -/
theorem C9_codec_roundtrip (d : XPFPrivateRR) (hw : d.WellFormed) (hr : d.InRange) :
    XPFPrivateRR.Decode d.Encode = .ok d := by
  obtain ⟨ver, proto, src, dst, sp, dp⟩ := d
  obtain ⟨_, hproto, hsp, hdp, _, _⟩ := hr
  simp only at hproto hsp hdp
  have e1 : proto % 256 = proto := Nat.mod_eq_of_lt (by omega)
  have e2 : sp / 256 % 256 * 256 + sp % 256 = sp := by omega
  have e3 : dp / 256 % 256 * 256 + dp % 256 = dp := by omega
  rcases hw with ⟨hv, hs, hd⟩ | ⟨hv, hs, hd⟩
  · simp only at hv hs hd
    subst hv
    simp [XPFPrivateRR.Encode, XPFPrivateRR.Decode, hs, hd, e1, e2, e3]
  · simp only at hv hs hd
    subst hv
    simp [XPFPrivateRR.Encode, XPFPrivateRR.Decode, hs, hd, e1, e2, e3]

/-- C9 at the record of 192.0.2.1:5353 to 192.0.2.2:53 over UDP, whose
encoding is 14 bytes long. -/
theorem C9_witness :
    XPFPrivateRR.Decode (XPFPrivateRR.Encode
        { IPVersion := 4, Protocol := 17, SrcAddress := [192, 0, 2, 1],
          DestAddress := [192, 0, 2, 2], SrcPort := 5353, DestPort := 53 }) =
      .ok { IPVersion := 4, Protocol := 17, SrcAddress := [192, 0, 2, 1],
            DestAddress := [192, 0, 2, 2], SrcPort := 5353, DestPort := 53 } :=
  C9_codec_roundtrip _ (by decide) (by unfold XPFPrivateRR.InRange; decide)

end Xpf
